import Mathlib

/-!
Shallow embedding of the scenario-generation pipeline of this repository
(source file OpenPyEl1.py): the workbook parsers (bracketed-block "Json"
dialect, tag-pair "XMLTagNamesStart" dialect, validation-sheet parser,
master-sheet row parser) and the scenario renderer.

Modelling conventions:
  - A cell is modelled by its stringified value, an Option String:
    none stands for an empty cell, i.e. the None result of
    cell_value_as_string; some s for a cell whose value prints as s.
  - Python exceptions are modelled by Except Unit: Except.error () is a
    raised exception, Except.ok a normal return.
  - Text printed to stderr is modelled by an explicit List String that the
    parsing functions return alongside their result.
  - Python string methods are modelled by executable py* helpers over the
    character list of a String (str.strip, str.lower, str.startswith,
    str.replace for a non-empty pattern, separator.join).
-/

deriving instance DecidableEq for Except

namespace OpenPyEl

/-- Python str() applied to a string-or-None value: None prints as "None". -/
def pyStr : Option String → String
  | none => "None"
  | some s => s

/-- Python separator.join over a list of strings. -/
def pyJoin (sep : String) : List String → String
  | [] => ""
  | [x] => x
  | x :: xs => x ++ sep ++ pyJoin sep xs

/-- Python str.lower (ASCII letters; the program only compares ASCII keywords). -/
def pyLower (s : String) : String := String.mk (s.data.map Char.toLower)

/-- Python str.strip with no argument: remove leading and trailing whitespace. -/
def pyStrip (s : String) : String :=
  String.mk (((s.data.dropWhile Char.isWhitespace).reverse.dropWhile Char.isWhitespace).reverse)

/-- Python s.startswith(pre). -/
def pyStartsWith (s pre : String) : Bool := pre.data.isPrefixOf s.data

/-- Left-to-right, non-overlapping replacement of a pattern in a character
list; the fuel argument starts at the list length, which bounds the number
of steps, so the recursion is structural. -/
def replaceFuel (pat rep : List Char) : Nat → List Char → List Char
  | _, [] => []
  | 0, l => l
  | fuel+1, c :: rest =>
    if pat.isPrefixOf (c :: rest) then
      rep ++ replaceFuel pat rep fuel (List.drop (pat.length - 1) rest)
    else
      c :: replaceFuel pat rep fuel rest

/-- Python s.replace(pat, rep). The program only calls it with non-empty
patterns, so the empty-pattern case (where Python would interleave rep
between all characters) is left as the identity. -/
def pyReplace (s pat rep : String) : String :=
  if pat.data = [] then s
  else String.mk (replaceFuel pat.data rep.data s.data.length s.data)

/-- The non-breaking-space character stripped from bracketed-block templates. -/
def nbsp : String := "\u00A0"

/-- Constant DO_NOT_INCLUDE of the source: the sentinel token. -/
def DO_NOT_INCLUDE : String := "DONOTINCLUDE"

/-- Constant TESTCASE_DESCRIPTION of the source: 0-based index of the
description cell in a master-sheet row. -/
def TESTCASE_DESCRIPTION : Nat := 2

/-- Constant TESTCASE_FIRST_OBJECT_NAME of the source: 0-based index of the
first parameter key cell in a master-sheet row. -/
def TESTCASE_FIRST_OBJECT_NAME : Nat := 9

/-- Constant TESTCASE_NAME of the source: 0-based index of the name cell in a
master-sheet row. -/
def TESTCASE_NAME : Nat := 1

/-- A worksheet: cell r c is the stringified value (cell_value_as_string in
the source) of the cell at 1-based row r and column c, none when empty. -/
structure Sheet where
  max_row : Nat
  max_column : Nat
  cell : Nat → Nat → Option String

/-- Function cell_value of the source: resolve a cell value under the input
(is_input = true) or output presence policy. -/
def cell_value (v : Option String) (is_input : Bool) : Option String :=
  match v with
  | none => if is_input then some "" else none
  | some s => if s = DO_NOT_INCLUDE then none else some s

/-- One pass of the marker scan of parse_json_input: a trimmed single open
bracket records the row as the opening row, a trimmed single close bracket
records it as the closing row; later rows overwrite earlier ones. -/
def bracket_step (s : Sheet) (acc : Option Nat × Option Nat) (r : Nat) :
    Option Nat × Option Nat :=
  match s.cell r 1 with
  | none => acc
  | some v =>
    let t := pyStrip v
    let acc2 := if t = "\x7b" then (some r, acc.2) else acc
    if t = "\x7d" then (acc2.1, some r) else acc2

/-- The marker scan of parse_json_input over rows 1 .. max_row of column 1. -/
def bracketRows (s : Sheet) : Option Nat × Option Nat :=
  (List.range' 1 s.max_row).foldl (bracket_step s) (none, none)

/-- Spec-side definition: the row of the last cell in column 1 whose trimmed
text is t, i.e. the first hit scanning rows max_row down to 1. -/
def marker_at (s : Sheet) (t : String) (r : Nat) : Bool :=
  match s.cell r 1 with
  | none => false
  | some v => pyStrip v = t

/-- Spec-side definition: the last row in 1 .. max_row whose column-1 cell
has trimmed text t. -/
def lastRowMatching (s : Sheet) (t : String) : Option Nat :=
  (List.range' 1 s.max_row).reverse.find? (marker_at s t)

/-- The template transformation of parse_json_input: strip the non-breaking
space, strip commas, substitute the placeholder token, trim. -/
def json_property (template v : String) : String :=
  pyStrip (pyReplace (pyReplace (pyReplace template nbsp "") "," "") "string" v)

/-- One row of the bracketed-block body loop for data column col: an omitted
input contributes nothing; otherwise the column-1 template is transformed.
Reading a template from an empty column-1 cell raises (AttributeError on
None in the source). -/
def json_row (s : Sheet) (col r : Nat) : Except Unit (Option String) :=
  match cell_value (s.cell r col) true with
  | none => Except.ok none
  | some v =>
    match s.cell r 1 with
    | none => Except.error ()
    | some t => Except.ok (some (json_property t v))

/-- A per-element loop that appends an optional contribution per element and
propagates a raised exception. -/
def exceptFilterMap {α β : Type} (f : α → Except Unit (Option β)) :
    List α → Except Unit (List β)
  | [] => Except.ok []
  | x :: xs =>
    match f x with
    | Except.error e => Except.error e
    | Except.ok none => exceptFilterMap f xs
    | Except.ok (some b) => (exceptFilterMap f xs).map (b :: ·)

/-- A per-element loop that appends one result per element and propagates a
raised exception. -/
def exceptMap {α β : Type} (f : α → Except Unit β) : List α → Except Unit (List β)
  | [] => Except.ok []
  | x :: xs =>
    match f x with
    | Except.error e => Except.error e
    | Except.ok b => (exceptMap f xs).map (b :: ·)

/-- The body block of one bracketed-block column: property lines joined with
comma-newline, wrapped in braces and in the triple-quote delimiter. -/
def json_body (props : List String) : String :=
  pyJoin "\n" ["\"\"\"", "\x7b", pyJoin ",\n" props, "\x7d", "\"\"\""]

/-- One data column of parse_json_input: the scenario name from the header
row paired with the body built from the rows strictly between the markers. -/
def json_column (s : Sheet) (o c col : Nat) : Except Unit (Option String × String) :=
  (exceptFilterMap (json_row s col) (List.range' (o + 1) (c - (o + 1)))).map
    (fun props => (s.cell 1 col, json_body props))

/-- Function parse_json_input of the source. The second component of the
result is the text printed to stderr. -/
def parse_json_input (filename : String) (s : Sheet) :
    Except Unit (Option (List (Option String × String)) × List String) :=
  match bracketRows s with
  | (some o, some c) =>
    (exceptMap (json_column s o c) (List.range' 2 (s.max_column - 1))).map
      (fun l => (some l, []))
  | _ =>
    Except.ok (none,
      ["Missing opening or closing bracket in json request for file " ++ filename])

/-- One row of the tag-pair loop for data column col. A blank or absent
end-tag cell appends the raw start-tag cell value (possibly none). Otherwise
an omitted input skips the row, and a present input appends
start_tag + value + end_tag, raising (TypeError in the source) when the
start-tag cell is empty. -/
def xml_row (s : Sheet) (col r : Nat) : Except Unit (Option (Option String)) :=
  match s.cell r 2 with
  | none => Except.ok (some (s.cell r 1))
  | some e =>
    if pyStrip e = "" then Except.ok (some (s.cell r 1))
    else
      match cell_value (s.cell r col) true with
      | none => Except.ok none
      | some v =>
        match s.cell r 1 with
        | none => Except.error ()
        | some st => Except.ok (some (some (st ++ v ++ e)))

/-- Sequence a list of optional strings, as Python separator.join does:
any None element raises a TypeError. -/
def seqOption {α : Type} : List (Option α) → Option (List α)
  | [] => some []
  | none :: _ => none
  | some x :: xs => (seqOption xs).map (x :: ·)

/-- One data column of parse_xml_input: emitted lines joined with newline and
wrapped in the triple-quote delimiter, paired with the header-row name. -/
def xml_column (s : Sheet) (col : Nat) : Except Unit (Option String × String) :=
  match exceptFilterMap (xml_row s col) (List.range' 3 (s.max_row + 1 - 3)) with
  | Except.error e => Except.error e
  | Except.ok props =>
    match seqOption props with
    | none => Except.error ()
    | some xs =>
      Except.ok (s.cell 1 col, pyJoin "\n" ["\"\"\"", pyJoin "\n" xs, "\"\"\""])

/-- Function parse_xml_input of the source (its filename argument is unused
there as well). -/
def parse_xml_input (filename : String) (s : Sheet) :
    Except Unit (List (Option String × String)) :=
  exceptMap (xml_column s) (List.range' 3 (s.max_column + 1 - 3))

/-- One row of the validation-sheet loop for data column col: an omitted
output (blank or sentinel) contributes nothing, a present one contributes
the column-1 expression cell paired with the value. -/
def output_row (s : Sheet) (col r : Nat) : Option (Option String × String) :=
  match cell_value (s.cell r col) false with
  | none => none
  | some v => some (s.cell r 1, v)

/-- Function parse_output of the source (its filename argument is unused
there as well). -/
def parse_output (filename : String) (s : Sheet) :
    List (Option String × List (Option String × String)) :=
  (List.range' 2 (s.max_column - 1)).map (fun col =>
    (s.cell 1 col, (List.range' 2 (s.max_row - 1)).filterMap (output_row s col)))

/-- The 0-based indices scanned by parse_testcase_parameters on a row of n
cells: TESTCASE_FIRST_OBJECT_NAME, then every second index, below n - 1. -/
def parameter_indices (n : Nat) : List Nat :=
  (List.range ((n - TESTCASE_FIRST_OBJECT_NAME) / 2)).map
    (fun k => TESTCASE_FIRST_OBJECT_NAME + 2 * k)

/-- Function parse_testcase_parameters of the source: the dict comprehension
keeps, in scan order, every (key cell, value cell) pair in which both cells
are present. -/
def parse_testcase_parameters (cells : List (Option String)) : List (String × String) :=
  (parameter_indices cells.length).filterMap (fun i =>
    match cells.getD i none, cells.getD (i + 1) none with
    | some k, some v => some (k, v)
    | _, _ => none)

/-- Python dict lookup on the association list built by the comprehension:
the value of the last binding of the key, none when the key is absent
(a KeyError in the source). -/
def dictGet (d : List (String × String)) (k : String) : Option String :=
  ((d.filter (fun p => p.1 == k)).getLast?).map Prod.snd

/-- A workbook: worksheets addressable by name. -/
structure Workbook where
  sheets : List (String × Sheet)

/-- Sheet lookup by name; none models the KeyError of workbook[name]. -/
def Workbook.find (wb : Workbook) (name : String) : Option Sheet :=
  (wb.sheets.find? (fun p => p.1 == name)).map Prod.snd

/-- One master-sheet row as handed to parse_testcase: the stringified cells
of columns 1 .. max_column (0-based list) and the 1-based row index. -/
structure MasterRow where
  cells : List (Option String)
  row_index : Nat
deriving DecidableEq

/-- Class TestCase of the source: the aggregate built for one master row. -/
structure TestCase where
  name : String
  inputs : List (Option String × String)
  outputs : List (Option String × List (Option String × String))
  parameters : List (String × String)
  request_type : String
deriving DecidableEq

/-- The diagnostic printed for a case whose request or validation sheet does
not resolve. -/
def missing_sheet_message (filename : String) : String :=
  "Missing request or validation sheet found in file " ++ filename

/-- The diagnostic printed for a request sheet whose first cell is no known
dialect keyword. -/
def unknown_type_message (filename rsName : String) : String :=
  "Unknown request type found in file " ++ filename ++ ", request sheet " ++ rsName

/-- The diagnostic printed by parse_json_input when a marker is missing. -/
def bracket_message (filename : String) : String :=
  "Missing opening or closing bracket in json request for file " ++ filename

/-- The diagnostic printed when the master sheet is missing. -/
def no_testdata_message (filename : String) : String :=
  "No TestData sheet found in file " ++ filename

/-- The diagnostic printed when an exception is caught at workbook level
(the source prints the exception object; its text is abstracted here). -/
def workbook_error_message (filename : String) : String :=
  "Exception while processing file " ++ filename

/-- The lookups of the try block of parse_testcase: the RequestSheet and
ValidationSheet parameters resolved to worksheets; none models the KeyError
branch (absent parameter key or absent worksheet). -/
def resolve_sheets (wb : Workbook) (ps : List (String × String)) :
    Option (String × Sheet × Sheet) :=
  match dictGet ps "RequestSheet" with
  | none => none
  | some rsName =>
    match wb.find rsName with
    | none => none
    | some rs =>
      match dictGet ps "ValidationSheet" with
      | none => none
      | some vsName =>
        match wb.find vsName with
        | none => none
        | some vs => some (rsName, rs, vs)

/-- Function parse_testcase of the source. Except.ok (none, ds) is a dropped
case with its diagnostics, Except.error a raised exception. The dispatch
table INPUT_PARSERS / INPUT_TYPES over the two keyword literals is inlined
as the two-way conditional. -/
def parse_testcase (filename : String) (wb : Workbook) (row : MasterRow) :
    Except Unit (Option TestCase × List String) :=
  let name := pyStr (row.cells.getD TESTCASE_NAME none) ++ "_" ++ toString (row.row_index - 1)
  let parameters := parse_testcase_parameters row.cells
  match resolve_sheets wb parameters with
  | none => Except.ok (none, [missing_sheet_message filename])
  | some (rsName, request_sheet, validation_sheet) =>
    let request_type := request_sheet.cell 1 1
    if request_type = some "Json" then
      match parse_json_input filename request_sheet with
      | Except.error e => Except.error e
      | Except.ok (none, ds) => Except.ok (none, ds)
      | Except.ok (some inputs, ds) =>
        Except.ok (some ⟨name, inputs, parse_output filename validation_sheet,
          parameters, "json"⟩, ds)
    else if request_type = some "XMLTagNamesStart" then
      match parse_xml_input filename request_sheet with
      | Except.error e => Except.error e
      | Except.ok inputs =>
        Except.ok (some ⟨name, inputs, parse_output filename validation_sheet,
          parameters, "xml"⟩, [])
    else
      Except.ok (none, [unknown_type_message filename rsName])

/-- The master-sheet row at 1-based row r, as iter_rows yields it. -/
def masterRow (s : Sheet) (r : Nat) : MasterRow :=
  ⟨(List.range' 1 s.max_column).map (fun col => s.cell r col), r⟩

/-- The per-case results of one workbook, in master-sheet order: rows
2 .. max_row whose description cell holds the required marker, each parsed
by parse_testcase. -/
def case_results (filename : String) (wb : Workbook) (s : Sheet) :
    List (Except Unit (Option TestCase × List String)) :=
  ((List.range' 2 (s.max_row - 1)).map (masterRow s)).filterMap (fun row =>
    if row.cells.getD TESTCASE_DESCRIPTION none = some "XMLWebServiceTest"
    then some (parse_testcase filename wb row) else none)

/-- Consume the per-case results as the tuple(...) call of parse_workbook
does: collect results and diagnostics in order, stopping at the first raised
exception, which makes the whole workbook fail. -/
def runCases : List (Except Unit (Option TestCase × List String)) →
    Option (List (Option TestCase)) × List String
  | [] => (some [], [])
  | Except.error _ :: _ => (none, [])
  | Except.ok (tc, ds) :: rest =>
    match runCases rest with
    | (res, ds2) => (res.map (tc :: ·), ds ++ ds2)

/-- Function parse_workbook of the source, on an already loaded workbook:
none with a diagnostic when the master sheet is missing or any exception is
raised; otherwise the successfully parsed cases. -/
def parse_workbook (filename : String) (wb : Workbook) :
    Option (List TestCase) × List String :=
  match wb.find "TestData" with
  | none => (none, [no_testdata_message filename])
  | some tds =>
    match runCases (case_results filename wb tds) with
    | (none, ds) => (none, ds ++ [workbook_error_message filename])
    | (some tcs, ds) => (some (tcs.filterMap id), ds)

/-- The test of TestCase.scenario that routes an assertion to the fixed
status-code line: expression.lower().strip().startswith of the literal
phrase. -/
def is_response_code (e : String) : Bool :=
  pyStartsWith (pyStrip (pyLower e)) "response code"

/-- One assertion line of TestCase.scenario: an empty expression cell raises
(AttributeError on None in the source). -/
def assertion_line (request_type pfx : String) (expr : Option String) (value : String) :
    Except Unit String :=
  match expr with
  | none => Except.error ()
  | some e =>
    if is_response_code e then
      Except.ok (pfx ++ " I validate that the Response Code should be " ++ value)
    else
      Except.ok (pfx ++ " I validate that the " ++ request_type
        ++ " path expression \"" ++ e ++ "\" should be \"" ++ value ++ "\"")

/-- The line list built by TestCase.scenario before joining: the optional tag
line fused with the title, the fixed given line, the when line, the body,
the header line, then one assertion line per output entry with prefix Then
for the first and And for the rest. A missing URL or RequestHeader parameter
raises (KeyError in the source). -/
def scenario_lines (tc : TestCase) (sc_input : Option String × String)
    (sc_output : Option String × List (Option String × String)) :
    Except Unit (List String) :=
  let tagLine := if pyStartsWith tc.name "S_" then "@SmokeTest\n"
    else if pyStartsWith tc.name "R_" then "@RegressionTest\n" else ""
  match dictGet tc.parameters "URL" with
  | none => Except.error ()
  | some url =>
    match dictGet tc.parameters "RequestHeader" with
    | none => Except.error ()
    | some hdr =>
      (exceptMap
        (fun p => assertion_line tc.request_type (if p.1 = 0 then "Then" else "And") p.2.1 p.2.2)
        sc_output.2.enum).map
        (fun aLines =>
          [tagLine ++ "Scenario: " ++ pyStr sc_input.1,
           "Given I am a XMLWebservice client",
           "When I send a POST request to URL \"" ++ url ++ "\" with the following "
             ++ tc.request_type ++ " body",
           sc_input.2,
           "And Request Header is \"" ++ hdr ++ "\""] ++ aLines)

/-- Method TestCase.scenario of the source: the joined line list. -/
def TestCase.scenario (tc : TestCase) (sc_input : Option String × String)
    (sc_output : Option String × List (Option String × String)) : Except Unit String :=
  (scenario_lines tc sc_input sc_output).map (pyJoin "\n")

/-- Method TestCase.scenarios of the source: one scenario per zipped
input/output pair. -/
def TestCase.scenarios (tc : TestCase) : Except Unit (List String) :=
  exceptMap (fun p => tc.scenario p.1 p.2) (tc.inputs.zip tc.outputs)

/-- The last element of l satisfying p, defaulting to d: the value a
record-the-last-match fold leaves behind. -/
def lastHit (p : Nat → Bool) (l : List Nat) (d : Option Nat) : Option Nat :=
  match l.reverse.find? p with
  | some r => some r
  | none => d

/-! Concrete instances used by the witness theorems. -/

def sheetC1 : Sheet :=
  ⟨4, 2, fun r c =>
    if r = 1 ∧ c = 1 then some "Json"
    else if r = 1 ∧ c = 2 then some "Valid login"
    else if r = 2 ∧ c = 1 then some "\x7b"
    else if r = 3 ∧ c = 1 then some "user: string"
    else if r = 3 ∧ c = 2 then some "bob"
    else if r = 4 ∧ c = 1 then some "\x7d"
    else none⟩

def rowC2 : List (Option String) :=
  [some "a", some "b", some "c", some "d", some "e", some "f", some "g", some "h", some "i",
   none, none, some "K", some "V"]

def sheetC4 : Sheet :=
  ⟨2, 2, fun r c =>
    if r = 2 ∧ c = 1 then some "t: string"
    else if r = 2 ∧ c = 2 then some "DONOTINCLUDE"
    else none⟩

def sheetC5 : Sheet :=
  ⟨2, 2, fun r c =>
    if r = 2 ∧ c = 1 then some "a\u00A0b,c: string"
    else if r = 2 ∧ c = 2 then some "bob"
    else none⟩

def sheetC6 : Sheet :=
  ⟨5, 3, fun r c =>
    if r = 1 ∧ c = 1 then some "XMLTagNamesStart"
    else if r = 1 ∧ c = 3 then some "case1"
    else if r = 3 ∧ c = 1 then some "<root>"
    else if r = 4 ∧ c = 1 then some "<a>"
    else if r = 4 ∧ c = 2 then some "</a>"
    else if r = 4 ∧ c = 3 then some "v"
    else if r = 5 ∧ c = 1 then some "<b>"
    else if r = 5 ∧ c = 2 then some "</b>"
    else if r = 5 ∧ c = 3 then some "DONOTINCLUDE"
    else none⟩

def tcC7 : TestCase :=
  ⟨"T7",
   [(some "i1", "B1"), (some "i2", "B2")],
   [(some "o1", [])],
   [("URL", "/u"), ("RequestHeader", "H")],
   "json"⟩

def tcC3 : TestCase :=
  ⟨"T3", [], [], [("URL", "/u"), ("RequestHeader", "H")], "json"⟩

def outsC3 : List (Option String × String) :=
  [(some " Response Code ", "200"), (some "$.id", "7")]

def linesC3 : List String :=
  ["Scenario: in",
   "Given I am a XMLWebservice client",
   "When I send a POST request to URL \"/u\" with the following json body",
   "BODY",
   "And Request Header is \"H\"",
   "Then I validate that the Response Code should be 200",
   "And I validate that the json path expression \"$.id\" should be \"7\""]

def wbC8 : Workbook := ⟨[]⟩

def rowC8 : MasterRow :=
  ⟨(List.replicate 9 none)
    ++ [some "RequestSheet", some "Nope", some "ValidationSheet", some "V"], 2⟩

def tdsC9 : Sheet :=
  ⟨2, 13, fun r c =>
    if r = 2 ∧ c = 2 then some "N"
    else if r = 2 ∧ c = 3 then some "XMLWebServiceTest"
    else if r = 2 ∧ c = 10 then some "RequestSheet"
    else if r = 2 ∧ c = 11 then some "R"
    else if r = 2 ∧ c = 12 then some "ValidationSheet"
    else if r = 2 ∧ c = 13 then some "V"
    else none⟩

def rsC9 : Sheet :=
  ⟨3, 3, fun r c =>
    if r = 1 ∧ c = 1 then some "XMLTagNamesStart" else none⟩

def vsC9 : Sheet := ⟨1, 1, fun _ _ => none⟩

def wbC9 : Workbook := ⟨[("TestData", tdsC9), ("R", rsC9), ("V", vsC9)]⟩

def sheetC10 : Sheet :=
  ⟨3, 3, fun r c =>
    if r = 1 ∧ c = 1 then some "XMLTagNamesStart" else none⟩

/-! General lemmas about the loop combinators and the marker scan. -/

theorem except_map_ok {α β : Type} {g : α → β} {e : Except Unit α} {b : β} :
    e.map g = Except.ok b ↔ ∃ a, e = Except.ok a ∧ b = g a := by
  cases e with
  | error e => simp [Except.map]
  | ok a => simp [Except.map, eq_comm]

theorem exceptMap_ok_length {α β : Type} (f : α → Except Unit β) :
    ∀ (l : List α) (res : List β), exceptMap f l = Except.ok res → res.length = l.length := by
  intro l
  induction l with
  | nil => intro res h; simp [exceptMap] at h; simp [← h]
  | cons x xs ih =>
    intro res h
    simp only [exceptMap] at h
    cases hfx : f x with
    | error e => rw [hfx] at h; exact absurd h (by simp)
    | ok b =>
      rw [hfx] at h
      obtain ⟨res0, hres0, hcons⟩ := except_map_ok.mp h
      subst hcons
      simp [ih res0 hres0]

theorem exceptMap_ok_getD {α β : Type} (f : α → Except Unit β) :
    ∀ (l : List α) (res : List β), exceptMap f l = Except.ok res →
      ∀ (i : Nat), i < l.length → ∀ (d : α) (d2 : β),
        f (l.getD i d) = Except.ok (res.getD i d2) := by
  intro l
  induction l with
  | nil => intro res h i hi; simp at hi
  | cons x xs ih =>
    intro res h i hi d d2
    simp only [exceptMap] at h
    cases hfx : f x with
    | error e => rw [hfx] at h; exact absurd h (by simp)
    | ok b =>
      rw [hfx] at h
      obtain ⟨res0, hres0, hcons⟩ := except_map_ok.mp h
      subst hcons
      cases i with
      | zero => simpa using hfx
      | succ j =>
        simp only [List.getD_cons_succ]
        exact ih res0 hres0 j (by simpa using hi) d d2

theorem except_map_error {α β : Type} {g : α → β} {e : Except Unit α} :
    e.map g = Except.error () ↔ e = Except.error () := by
  cases e with
  | error e => cases e; simp [Except.map]
  | ok a => simp [Except.map]

theorem exceptMap_congr_map {α β γ : Type} (f g : α → Except Unit β) (h : β → γ) :
    ∀ (l : List α), (∀ x ∈ l, (f x).map h = (g x).map h) →
      (exceptMap f l).map (List.map h) = (exceptMap g l).map (List.map h) := by
  intro l
  induction l with
  | nil => intro _; rfl
  | cons x xs ih =>
    intro hfg
    have hx := hfg x (by simp)
    have ihx := ih (fun y hy => hfg y (by simp [hy]))
    simp only [exceptMap]
    cases hfx : f x with
    | error e =>
      cases e
      rw [hfx] at hx
      have : g x = Except.error () := by
        cases hgx : g x with
        | error e2 => cases e2; rfl
        | ok b2 => rw [hgx] at hx; simp [Except.map] at hx
      rw [this]
    | ok b =>
      rw [hfx] at hx
      cases hgx : g x with
      | error e2 => cases e2; rw [hgx] at hx; simp [Except.map] at hx
      | ok b2 =>
        rw [hgx] at hx
        simp only [Except.map] at hx
        have hbb : h b = h b2 := by simpa using hx
        cases hmf : exceptMap f xs with
        | error e3 =>
          cases e3
          have hge : exceptMap g xs = Except.error () := by
            rw [hmf] at ihx
            apply except_map_error.mp
            rw [← ihx]
            simp [Except.map]
          rw [hge]
          simp [Except.map]
        | ok res =>
          rw [hmf] at ihx
          cases hmg : exceptMap g xs with
          | error e4 => cases e4; rw [hmg] at ihx; simp [Except.map] at ihx
          | ok res2 =>
            rw [hmg] at ihx
            simp only [Except.map] at ihx ⊢
            have : res.map h = res2.map h := by simpa using ihx
            simp [this, hbb]

theorem exceptFilterMap_congr {α β : Type} (f g : α → Except Unit (Option β)) :
    ∀ (l : List α), (∀ x ∈ l, f x = g x) → exceptFilterMap f l = exceptFilterMap g l := by
  intro l
  induction l with
  | nil => intro _; rfl
  | cons x xs ih =>
    intro hfg
    simp only [exceptFilterMap]
    rw [hfg x (by simp), ih (fun y hy => hfg y (by simp [hy]))]

theorem exceptFilterMap_ok_mem {α β : Type} (f : α → Except Unit (Option β)) :
    ∀ (l : List α) (res : List β), exceptFilterMap f l = Except.ok res →
      ∀ x ∈ l, ∀ (b : β), f x = Except.ok (some b) → b ∈ res := by
  intro l
  induction l with
  | nil => intro res h x hx; simp at hx
  | cons y ys ih =>
    intro res h x hx b hfx
    simp only [exceptFilterMap] at h
    rcases List.mem_cons.mp hx with rfl | hmem
    · rw [hfx] at h
      obtain ⟨res0, _, hcons⟩ := except_map_ok.mp h
      subst hcons
      simp
    · cases hfy : f y with
      | error e => rw [hfy] at h; exact absurd h (by simp)
      | ok ob =>
        rw [hfy] at h
        cases ob with
        | none => exact ih res h x hmem b hfx
        | some b0 =>
          obtain ⟨res0, hres0, hcons⟩ := except_map_ok.mp h
          subst hcons
          exact List.mem_cons_of_mem _ (ih res0 hres0 x hmem b hfx)

theorem seqOption_of_none {α : Type} :
    ∀ (l : List (Option α)), none ∈ l → seqOption l = none := by
  intro l
  induction l with
  | nil => intro h; simp at h
  | cons x xs ih =>
    intro h
    cases x with
    | none => rfl
    | some v =>
      rcases List.mem_cons.mp h with h1 | h2
      · exact absurd h1 (by simp)
      · simp [seqOption, ih h2]

theorem seqOption_eq_some {α : Type} :
    ∀ (l : List (Option α)) (xs : List α), seqOption l = some xs → l = xs.map some := by
  intro l
  induction l with
  | nil => intro xs h; simp [seqOption] at h; simp [← h]
  | cons x t ih =>
    intro xs h
    cases x with
    | none => simp [seqOption] at h
    | some v =>
      simp only [seqOption] at h
      cases ht : seqOption t with
      | none => rw [ht] at h; simp at h
      | some ys =>
        rw [ht] at h
        simp only [Option.map] at h
        have : xs = v :: ys := by simpa using h.symm
        subst this
        simp [ih ys ht]

theorem runCases_of_error :
    ∀ (l : List (Except Unit (Option TestCase × List String))),
      Except.error () ∈ l → (runCases l).1 = none := by
  intro l
  induction l with
  | nil => intro h; simp at h
  | cons x xs ih =>
    intro h
    cases x with
    | error e => rfl
    | ok p =>
      rcases List.mem_cons.mp h with h1 | h2
      · exact absurd h1 (by simp)
      · obtain ⟨tc, ds⟩ := p
        simp only [runCases]
        cases hr : runCases xs with
        | mk res ds2 =>
          have : res = none := by have := ih h2; rwa [hr] at this
          subst this
          rfl

theorem runCases_ok_shape :
    ∀ (l : List (Except Unit (Option TestCase × List String)))
      (m : List (Option TestCase)), (runCases l).1 = some m →
      ∃ pairs : List (Option TestCase × List String),
        l = pairs.map Except.ok ∧ m = pairs.map Prod.fst := by
  intro l
  induction l with
  | nil =>
    intro m h
    refine ⟨[], by simp, ?_⟩
    simpa [runCases] using h.symm
  | cons x xs ih =>
    intro m h
    cases x with
    | error e => simp [runCases] at h
    | ok p =>
      obtain ⟨tc, ds⟩ := p
      simp only [runCases] at h
      cases hr : runCases xs with
      | mk res ds2 =>
        rw [hr] at h
        simp only at h
        cases res with
        | none => simp at h
        | some m0 =>
          have hm : m = tc :: m0 := by simpa using h.symm
          obtain ⟨pairs0, hl0, hm0⟩ := ih m0 (by rw [hr])
          exact ⟨(tc, ds) :: pairs0, by simp [hl0], by simp [hm, hm0]⟩

theorem filterMap_id_cons (tc : Option TestCase) (rest : List (Option TestCase)) :
    (tc :: rest).filterMap id = tc.toList ++ rest.filterMap id := by
  cases tc <;> simp [List.filterMap_cons]

theorem runCases_skip_none :
    ∀ (as bs : List (Except Unit (Option TestCase × List String))) (ds : List String),
      ((runCases (as ++ Except.ok (none, ds) :: bs)).1).map (List.filterMap id)
        = ((runCases (as ++ bs)).1).map (List.filterMap id) := by
  intro as
  induction as with
  | nil =>
    intro bs ds
    simp only [List.nil_append, runCases]
    cases hr : runCases bs with
    | mk res ds2 =>
      simp only
      cases res <;> simp
  | cons x xs ih =>
    intro bs ds
    cases x with
    | error e => rfl
    | ok p =>
      obtain ⟨tc, dsx⟩ := p
      simp only [List.cons_append, runCases]
      cases hr1 : runCases (xs ++ Except.ok (none, ds) :: bs) with
      | mk res1 d1 =>
        cases hr2 : runCases (xs ++ bs) with
        | mk res2 d2 =>
          have hres : res1.map (List.filterMap id) = res2.map (List.filterMap id) := by
            have := ih bs ds
            rw [hr1, hr2] at this
            exact this
          simp only
          rw [Option.map_map, Option.map_map]
          have hfun : (List.filterMap id ∘ fun x => tc :: x)
              = (fun l => tc.toList ++ l) ∘ List.filterMap id := by
            funext l
            simp [filterMap_id_cons]
          rw [hfun, ← Option.map_map, ← Option.map_map, hres]

theorem bracket_step_fst (s : Sheet) (acc : Option Nat × Option Nat) (r : Nat) :
    (bracket_step s acc r).1 = if marker_at s "\x7b" r then some r else acc.1 := by
  unfold bracket_step marker_at
  cases hc : s.cell r 1 with
  | none => simp
  | some v =>
    simp only
    by_cases h1 : pyStrip v = "\x7b"
    · by_cases h2 : pyStrip v = "\x7d"
      · rw [h1] at h2; simp at h2
      · simp [h1, h2]
    · by_cases h2 : pyStrip v = "\x7d"
      · simp [h1, h2]
      · simp [h1, h2]

theorem bracket_step_snd (s : Sheet) (acc : Option Nat × Option Nat) (r : Nat) :
    (bracket_step s acc r).2 = if marker_at s "\x7d" r then some r else acc.2 := by
  unfold bracket_step marker_at
  cases hc : s.cell r 1 with
  | none => simp
  | some v =>
    simp only
    by_cases h1 : pyStrip v = "\x7b"
    · by_cases h2 : pyStrip v = "\x7d"
      · rw [h1] at h2; simp at h2
      · simp [h1, h2]
    · by_cases h2 : pyStrip v = "\x7d"
      · simp [h1, h2]
      · simp [h1, h2]

theorem lastHit_cons (p : Nat → Bool) (a : Nat) (l : List Nat) (d : Option Nat) :
    lastHit p (a :: l) d = lastHit p l (if p a then some a else d) := by
  simp only [lastHit, List.reverse_cons, List.find?_append]
  cases hf : l.reverse.find? p with
  | some r => simp
  | none =>
    simp only [Option.none_or]
    cases hpa : p a <;> simp [List.find?, hpa]

theorem foldl_bracket (s : Sheet) :
    ∀ (l : List Nat) (acc : Option Nat × Option Nat),
      l.foldl (bracket_step s) acc =
        (lastHit (marker_at s "\x7b") l acc.1, lastHit (marker_at s "\x7d") l acc.2) := by
  intro l
  induction l with
  | nil => intro acc; simp [lastHit]
  | cons a t ih =>
    intro acc
    rw [List.foldl_cons, ih]
    rw [lastHit_cons, lastHit_cons]
    rw [bracket_step_fst, bracket_step_snd]

theorem bracketRows_eq (s : Sheet) :
    bracketRows s = (lastRowMatching s "\x7b", lastRowMatching s "\x7d") := by
  rw [bracketRows, foldl_bracket]
  unfold lastRowMatching lastHit
  cases (List.range' 1 s.max_row).reverse.find? (marker_at s "\x7b") <;>
    cases (List.range' 1 s.max_row).reverse.find? (marker_at s "\x7d") <;> rfl

/-! Claim theorems and witnesses. -/

theorem except_map_map {α β γ : Type} (g : α → β) (f : β → γ) (e : Except Unit α) :
    (e.map g).map f = e.map (fun a => f (g a)) := by
  cases e <;> rfl

theorem getD_range' (a n i : Nat) (h : i < n) (d : Nat) :
    (List.range' a n).getD i d = a + i := by
  rw [List.getD_eq_getElem _ _ (by simpa using h)]
  simp

theorem getD_zip {α β : Type} (as : List α) (bs : List β) (i : Nat)
    (h : i < (as.zip bs).length) (d1 : α) (d2 : β) :
    (as.zip bs).getD i (d1, d2) = (as.getD i d1, bs.getD i d2) := by
  have h1 : i < as.length := by simp [List.length_zip] at h; omega
  have h2 : i < bs.length := by simp [List.length_zip] at h; omega
  rw [List.getD_eq_getElem _ _ h, List.getD_eq_getElem _ _ h1, List.getD_eq_getElem _ _ h2,
    List.getElem_zip]

/-- C1: for a bracketed-block sheet whose column 1 contains open and close
markers, the opening row is the last trimmed open-bracket row and the closing
row the last trimmed close-bracket row; the returned input sequence has one
entry per column 2 .. max_column, hence max_column - 1 entries; and the
property lines depend only on column 1 and on the cells of the rows strictly
between the two marker rows. -/
theorem C1_bracket_markers_and_extent (fn : String) (s : Sheet) (o c : Nat)
    (ho : lastRowMatching s "\x7b" = some o) (hc : lastRowMatching s "\x7d" = some c)
    (hoc : o < c) :
    bracketRows s = (some o, some c)
    ∧ (∀ l ds, parse_json_input fn s = Except.ok (some l, ds) →
        l.length = s.max_column - 1
        ∧ ∀ i, i < l.length → (l.getD i (none, "")).1 = s.cell 1 (2 + i))
    ∧ (∀ s2 : Sheet, s2.max_row = s.max_row → s2.max_column = s.max_column →
        (∀ r, s2.cell r 1 = s.cell r 1) →
        (∀ r col, o < r → r < c → s2.cell r col = s.cell r col) →
        (parse_json_input fn s2).map (fun p => (p.1.map (List.map Prod.snd), p.2))
          = (parse_json_input fn s).map (fun p => (p.1.map (List.map Prod.snd), p.2))) := by
  have hbr : bracketRows s = (some o, some c) := by rw [bracketRows_eq, ho, hc]
  refine ⟨hbr, ?_, ?_⟩
  · intro l ds h
    unfold parse_json_input at h
    rw [hbr] at h
    simp only at h
    obtain ⟨l0, hl0, hpair⟩ := except_map_ok.mp h
    injection hpair with h1 h2
    injection h1 with h1
    subst h1
    subst h2
    constructor
    · rw [exceptMap_ok_length _ _ _ hl0]
      simp [List.length_range']
    · intro i hi
      have hlen := exceptMap_ok_length _ _ _ hl0
      have hicols : i < (List.range' 2 (s.max_column - 1)).length := by
        simpa [List.length_range'] using hi.trans_eq hlen
      have hg := exceptMap_ok_getD _ _ _ hl0 i (by simpa [List.length_range'] using hicols)
        0 (none, "")
      rw [getD_range' 2 (s.max_column - 1) i (by simpa [List.length_range'] using hicols)] at hg
      unfold json_column at hg
      obtain ⟨props, _, hp⟩ := except_map_ok.mp hg
      rw [hp]
  · intro s2 hmr hmc hc1 hbet
    have hml : ∀ t, lastRowMatching s2 t = lastRowMatching s t := by
      intro t
      unfold lastRowMatching
      rw [hmr]
      congr 1
      funext r
      unfold marker_at
      rw [hc1 r]
    have hbr2 : bracketRows s2 = (some o, some c) := by
      rw [bracketRows_eq, hml, hml, ho, hc]
    unfold parse_json_input
    rw [hbr, hbr2]
    simp only
    rw [except_map_map, except_map_map]
    rw [hmc]
    have hcols : ∀ col ∈ List.range' 2 (s.max_column - 1),
        (json_column s2 o c col).map Prod.snd = (json_column s o c col).map Prod.snd := by
      intro col _
      unfold json_column
      rw [except_map_map, except_map_map]
      have hrows : exceptFilterMap (json_row s2 col) (List.range' (o + 1) (c - (o + 1)))
          = exceptFilterMap (json_row s col) (List.range' (o + 1) (c - (o + 1))) := by
        apply exceptFilterMap_congr
        intro r hr
        have hrb := List.mem_range'_1.mp hr
        have hor : o < r := by omega
        have hrc : r < c := by omega
        unfold json_row
        rw [hbet r col hor hrc, hc1 r]
      rw [hrows]
    have hmain := exceptMap_congr_map (json_column s2 o c) (json_column s o c) Prod.snd
      (List.range' 2 (s.max_column - 1)) hcols
    have hmain2 := congrArg (Except.map (fun m : List String => (some m, ([] : List String)))) hmain
    rw [except_map_map, except_map_map] at hmain2
    simpa using hmain2

/-- C1 witness: the concrete bracketed-block sheet with markers at rows 2 and
4 and one data column. -/
theorem C1_bracket_markers_and_extent_witness :
    bracketRows sheetC1 = (some 2, some 4)
    ∧ [(some "Valid login", "\"\"\"\n\x7b\nuser: bob\n\x7d\n\"\"\"")].length
        = sheetC1.max_column - 1 := by
  have h := C1_bracket_markers_and_extent "f" sheetC1 2 4 (by decide) (by decide) (by decide)
  exact ⟨h.1, (h.2.1 _ [] (by decide)).1⟩

/-- C2 counterexample: in a master row whose first parameter pair (0-based
cells 9 and 10) is absent, the pair at cells 11 and 12 still contributes, so
scanning does not stop at the first absent pair. -/
theorem C2_parameters_counterexample :
    rowC2.getD TESTCASE_FIRST_OBJECT_NAME none = none
    ∧ rowC2.getD (TESTCASE_FIRST_OBJECT_NAME + 1) none = none
    ∧ parse_testcase_parameters rowC2 = [("K", "V")] := by
  decide

/-- C2 amended: parameter extraction consumes (key-cell, value-cell) pairs
two columns apart from the fixed offset up to the end of the row, skipping
any pair in which either cell is absent; a pair with both cells present
contributes even when an earlier pair is absent. -/
theorem C2_parameters_skip_absent (cells : List (Option String)) (i : Nat) (k v : String)
    (h9 : TESTCASE_FIRST_OBJECT_NAME ≤ i) (hpar : (i - TESTCASE_FIRST_OBJECT_NAME) % 2 = 0)
    (hlt : i + 1 < cells.length)
    (hk : cells.getD i none = some k) (hv : cells.getD (i + 1) none = some v) :
    (k, v) ∈ parse_testcase_parameters cells := by
  unfold parse_testcase_parameters
  apply List.mem_filterMap.mpr
  refine ⟨i, ?_, ?_⟩
  · unfold parameter_indices
    apply List.mem_map.mpr
    refine ⟨(i - TESTCASE_FIRST_OBJECT_NAME) / 2, ?_, ?_⟩
    · apply List.mem_range.mpr
      unfold TESTCASE_FIRST_OBJECT_NAME at h9 hpar ⊢
      omega
    · unfold TESTCASE_FIRST_OBJECT_NAME at h9 hpar ⊢
      omega
  · rw [hk, hv]

/-- C2 witness for the amended claim: the pair at cells 11 and 12 of the
concrete row is in the parameter map. -/
theorem C2_parameters_skip_absent_witness :
    ("K", "V") ∈ parse_testcase_parameters rowC2 :=
  C2_parameters_skip_absent rowC2 11 "K" "V" (by decide) (by decide) (by decide)
    (by decide) (by decide)

/-- C3: in a rendered scenario, an assertion whose expression (lowercased
and stripped) starts with the phrase response code renders as the fixed
status-code line with the raw expected value; every other assertion renders
as the generic path-expression line naming the dialect, the expression and
the value verbatim; the first assertion uses the prefix Then, later ones
And. -/
theorem C3_response_code_dispatch (tc : TestCase) (sc_input : Option String × String)
    (sc_output : Option String × List (Option String × String)) (lines : List String)
    (h : scenario_lines tc sc_input sc_output = Except.ok lines) :
    lines.length = 5 + sc_output.2.length
    ∧ ∀ i e v, i < sc_output.2.length → sc_output.2.getD i (none, "") = (some e, v) →
        lines.getD (5 + i) "" =
          if is_response_code e then
            (if i = 0 then "Then" else "And")
              ++ " I validate that the Response Code should be " ++ v
          else
            (if i = 0 then "Then" else "And") ++ " I validate that the " ++ tc.request_type
              ++ " path expression \"" ++ e ++ "\" should be \"" ++ v ++ "\"" := by
  unfold scenario_lines at h
  cases hurl : dictGet tc.parameters "URL" with
  | none => rw [hurl] at h; exact absurd h (by simp)
  | some url =>
    rw [hurl] at h
    dsimp only at h
    cases hhdr : dictGet tc.parameters "RequestHeader" with
    | none => rw [hhdr] at h; exact absurd h (by simp)
    | some hdr =>
      rw [hhdr] at h
      dsimp only at h
      obtain ⟨aLines, hA, hL⟩ := except_map_ok.mp h
      have hAlen : aLines.length = sc_output.2.length := by
        rw [exceptMap_ok_length _ _ _ hA, List.enum_length]
      constructor
      · rw [hL]
        simp [hAlen]
        omega
      · intro i e v hi hev
        have hienum : i < sc_output.2.enum.length := by
          simpa [List.enum_length] using hi
        have hg := exceptMap_ok_getD _ _ _ hA i hienum (0, (none, "")) ""
        have henum : sc_output.2.enum.getD i (0, (none, "")) = (i, (some e, v)) := by
          rw [List.getD_eq_getElem _ _ hienum, List.getElem_enum]
          rw [← hev, List.getD_eq_getElem _ _ hi]
        rw [henum] at hg
        dsimp only at hg
        rw [hL]
        have hgetd : (([(if pyStartsWith tc.name "S_" then "@SmokeTest\n"
              else if pyStartsWith tc.name "R_" then "@RegressionTest\n" else "")
              ++ "Scenario: " ++ pyStr sc_input.1,
            "Given I am a XMLWebservice client",
            "When I send a POST request to URL \"" ++ url ++ "\" with the following "
              ++ tc.request_type ++ " body",
            sc_input.2,
            "And Request Header is \"" ++ hdr ++ "\""] : List String) ++ aLines).getD (5 + i) ""
            = aLines.getD i "" := by
          rw [List.getD_append_right _ _ _ _ (by simp)]
          simp
        rw [hgetd]
        by_cases hrc : is_response_code e
        · simp only [assertion_line, hrc, if_true, Except.ok.injEq] at hg
          simp only [hrc, if_true]
          exact hg.symm
        · rw [Bool.not_eq_true] at hrc
          simp only [assertion_line, hrc, Bool.false_eq_true, if_false, Except.ok.injEq] at hg
          simp only [hrc, Bool.false_eq_true, if_false]
          exact hg.symm

/-- C3 witness: an expression reading Response Code with extra spaces and
mixed case renders as the status line with the raw value 200, while a path
expression renders as the generic line. -/
theorem C3_response_code_dispatch_witness :
    scenario_lines tcC3 (some "in", "BODY") (some "out", outsC3) = Except.ok linesC3
    ∧ linesC3.getD 5 "" = "Then I validate that the Response Code should be 200"
    ∧ linesC3.getD 6 ""
        = "And I validate that the json path expression \"$.id\" should be \"7\"" := by
  have h := C3_response_code_dispatch tcC3 (some "in", "BODY") (some "out", outsC3)
    linesC3 (by decide)
  have h1 := h.2 0 " Response Code " "200" (by decide) (by decide)
  have h2 := h.2 1 "$.id" "7" (by decide) (by decide)
  refine ⟨by decide, ?_, ?_⟩
  · rw [show linesC3.getD 5 "" = linesC3.getD (5 + 0) "" from rfl, h1]
    decide
  · rw [show linesC3.getD 6 "" = linesC3.getD (5 + 1) "" from rfl, h2]
    decide

/-- C4: the presence resolver maps a blank cell to the empty string for
inputs and to omitted for outputs, and the sentinel to omitted in both
modes; hence a sentinel cell contributes nothing to a bracketed-block
property list, a validation list or a tag-pair value row, a blank input
cell substitutes the empty string into the template, and a blank output
cell contributes no assertion. -/
theorem C4_presence_policy (s : Sheet) (col r : Nat) :
    (cell_value none true = some "" ∧ cell_value none false = none
      ∧ cell_value (some DO_NOT_INCLUDE) true = none
      ∧ cell_value (some DO_NOT_INCLUDE) false = none)
    ∧ (s.cell r col = some DO_NOT_INCLUDE →
        json_row s col r = Except.ok none
        ∧ output_row s col r = none
        ∧ ∀ e, s.cell r 2 = some e → pyStrip e ≠ "" → xml_row s col r = Except.ok none)
    ∧ (s.cell r col = none →
        output_row s col r = none
        ∧ ∀ t, s.cell r 1 = some t →
            json_row s col r = Except.ok (some (json_property t ""))) := by
  refine ⟨⟨rfl, rfl, by decide, by decide⟩, ?_, ?_⟩
  · intro hs
    refine ⟨?_, ?_, ?_⟩
    · unfold json_row
      rw [hs]
      simp [cell_value, DO_NOT_INCLUDE]
    · unfold output_row
      rw [hs]
      simp [cell_value, DO_NOT_INCLUDE]
    · intro e he hne
      unfold xml_row
      rw [he]
      dsimp only
      rw [if_neg hne, hs]
      simp [cell_value, DO_NOT_INCLUDE]
  · intro hs
    refine ⟨?_, ?_⟩
    · unfold output_row
      rw [hs]
      rfl
    · intro t ht
      unfold json_row
      rw [hs, ht]
      rfl

/-- C4 witness: on the concrete sheet the sentinel cell is omitted from both
input and output parsing, while a blank input cell substitutes the empty
string into the template. -/
theorem C4_presence_policy_witness :
    json_row sheetC4 2 2 = Except.ok none
    ∧ output_row sheetC4 2 2 = none
    ∧ json_row sheetC4 3 2 = Except.ok (some "t:") := by
  have h1 := (C4_presence_policy sheetC4 2 2).2.1 (by decide)
  have h2 := (C4_presence_policy sheetC4 3 2).2.2 (by decide)
  refine ⟨h1.1, h1.2.1, ?_⟩
  have h3 := h2.2 "t: string" (by decide)
  rw [h3]
  decide

/-- C5: for a row whose input resolves to a value v, the emitted property
line is the column-1 template with, in this order, every non-breaking space
removed, every comma removed, the token string replaced by v, and the result
trimmed; and for markers o < r < c that line is a member of the property
list of the column. -/
theorem C5_template_transform (s : Sheet) (col r : Nat) (t v : String)
    (ht : s.cell r 1 = some t) (hv : cell_value (s.cell r col) true = some v) :
    json_row s col r = Except.ok (some
      (pyStrip (pyReplace (pyReplace (pyReplace t nbsp "") "," "") "string" v)))
    ∧ (∀ o c props,
        exceptFilterMap (json_row s col) (List.range' (o + 1) (c - (o + 1)))
          = Except.ok props → o < r → r < c →
        pyStrip (pyReplace (pyReplace (pyReplace t nbsp "") "," "") "string" v) ∈ props) := by
  have hrow : json_row s col r = Except.ok (some
      (pyStrip (pyReplace (pyReplace (pyReplace t nbsp "") "," "") "string" v))) := by
    unfold json_row
    rw [hv, ht]
    rfl
  refine ⟨hrow, ?_⟩
  intro o c props hfm hor hrc
  exact exceptFilterMap_ok_mem _ _ props hfm r
    (List.mem_range'_1.mpr (by omega)) _ hrow

/-- C5 witness: the concrete template with a non-breaking space, a comma and
the placeholder, substituted with the value bob. -/
theorem C5_template_transform_witness :
    json_row sheetC5 2 2 = Except.ok (some "abc: bob") := by
  have h := (C5_template_transform sheetC5 2 2 "a\u00A0b,c: string" "bob"
    (by decide) (by decide)).1
  rw [h]
  decide

/-- C6: in the tag-pair dialect a blank or absent end-tag cell emits the raw
start-tag cell regardless of the data cell; a present end tag with a
sentinel data cell skips the row; a present end tag with a resolved value v
emits start_tag + v + end_tag; and each produced column is the emitted lines
joined by newlines and wrapped in the triple-quote delimiter, one column per
data column from 3 to max_column, each named by its header cell. -/
theorem C6_tag_pair_rows (s : Sheet) (col r : Nat) :
    (s.cell r 2 = none → xml_row s col r = Except.ok (some (s.cell r 1)))
    ∧ (∀ e, s.cell r 2 = some e → pyStrip e = "" →
        xml_row s col r = Except.ok (some (s.cell r 1)))
    ∧ (∀ e, s.cell r 2 = some e → pyStrip e ≠ "" →
        cell_value (s.cell r col) true = none → xml_row s col r = Except.ok none)
    ∧ (∀ e st v, s.cell r 2 = some e → pyStrip e ≠ "" → s.cell r 1 = some st →
        cell_value (s.cell r col) true = some v →
        xml_row s col r = Except.ok (some (some (st ++ v ++ e))))
    ∧ (∀ fn l, parse_xml_input fn s = Except.ok l →
        l.length = s.max_column + 1 - 3
        ∧ ∀ i, i < l.length →
          ∃ xs, exceptFilterMap (xml_row s (3 + i)) (List.range' 3 (s.max_row + 1 - 3))
              = Except.ok (xs.map some)
            ∧ l.getD i (none, "") = (s.cell 1 (3 + i),
                pyJoin "\n" ["\"\"\"", pyJoin "\n" xs, "\"\"\""])) := by
  refine ⟨?_, ?_, ?_, ?_, ?_⟩
  · intro he
    unfold xml_row
    rw [he]
  · intro e he hblank
    unfold xml_row
    rw [he]
    dsimp only
    rw [if_pos hblank]
  · intro e he hne hv
    unfold xml_row
    rw [he]
    dsimp only
    rw [if_neg hne, hv]
  · intro e st v he hne hst hv
    unfold xml_row
    rw [he]
    dsimp only
    rw [if_neg hne, hv, hst]
  · intro fn l h
    unfold parse_xml_input at h
    have hlen := exceptMap_ok_length _ _ _ h
    constructor
    · rw [hlen]
      simp [List.length_range']
    · intro i hi
      have hicols : i < (List.range' 3 (s.max_column + 1 - 3)).length := by
        rw [← hlen]
        exact hi
      have hg := exceptMap_ok_getD _ _ _ h i hicols 0 (none, "")
      rw [getD_range' 3 (s.max_column + 1 - 3) i (by simpa [List.length_range'] using hicols)]
        at hg
      unfold xml_column at hg
      cases hfm : exceptFilterMap (xml_row s (3 + i)) (List.range' 3 (s.max_row + 1 - 3)) with
      | error e => rw [hfm] at hg; exact absurd hg (by simp)
      | ok props =>
        rw [hfm] at hg
        simp only at hg
        cases hsq : seqOption props with
        | none => rw [hsq] at hg; exact absurd hg (by simp)
        | some xs =>
          rw [hsq] at hg
          simp only at hg
          injection hg with hg
          have hpx := seqOption_eq_some props xs hsq
          subst hpx
          exact ⟨xs, rfl, hg.symm⟩

/-- C6 witness: on the concrete tag-pair sheet, a missing end tag emits the
start tag verbatim, a sentinel data cell skips its row, a present value is
wrapped in the tag pair, and the one produced column has one entry. -/
theorem C6_tag_pair_rows_witness :
    xml_row sheetC6 3 3 = Except.ok (some (some "<root>"))
    ∧ xml_row sheetC6 3 5 = Except.ok none
    ∧ xml_row sheetC6 3 4 = Except.ok (some (some "<a>v</a>"))
    ∧ [(some "case1", "\"\"\"\n<root>\n<a>v</a>\n\"\"\"")].length
        = sheetC6.max_column + 1 - 3 := by
  refine ⟨?_, ?_, ?_, ?_⟩
  · have h := (C6_tag_pair_rows sheetC6 3 3).1 (by decide)
    rw [h]
    decide
  · exact (C6_tag_pair_rows sheetC6 3 5).2.2.1 "</b>" (by decide) (by decide) (by decide)
  · exact (C6_tag_pair_rows sheetC6 3 4).2.2.2.1 "</a>" "<a>" "v" (by decide) (by decide)
      (by decide) (by decide)
  · exact ((C6_tag_pair_rows sheetC6 3 3).2.2.2.2 "f" _ (by decide)).1

/-- C7: rendering pairs inputs and outputs by position, and produces exactly
min(len inputs, len outputs) scenarios, the surplus of the longer sequence
being discarded. -/
theorem C7_scenarios_pairing (tc : TestCase) (l : List String)
    (h : tc.scenarios = Except.ok l) :
    l.length = min tc.inputs.length tc.outputs.length
    ∧ ∀ i, i < l.length →
        tc.scenario (tc.inputs.getD i (none, "")) (tc.outputs.getD i (none, []))
          = Except.ok (l.getD i "") := by
  unfold TestCase.scenarios at h
  have hlen := exceptMap_ok_length _ _ _ h
  constructor
  · rw [hlen, List.length_zip]
  · intro i hi
    have hiz : i < (tc.inputs.zip tc.outputs).length := by rw [← hlen]; exact hi
    have hg := exceptMap_ok_getD _ _ _ h i hiz ((none, ""), (none, [])) ""
    rw [getD_zip _ _ _ hiz] at hg
    exact hg

/-- C7 witness: with two inputs and one output the concrete test case renders
exactly one scenario. -/
theorem C7_scenarios_pairing_witness :
    [("Scenario: i1\nGiven I am a XMLWebservice client\nWhen I send a POST request to URL \"/u\" with the following json body\nB1\nAnd Request Header is \"H\"" : String)].length
      = min tcC7.inputs.length tcC7.outputs.length := by
  exact (C7_scenarios_pairing tcC7 _ (by decide)).1

/-- C8: a case whose request or validation sheet does not resolve, whose
request sheet has an unknown first-cell keyword, or whose Json request sheet
lacks a bracket marker, is dropped with exactly one diagnostic and no
TestCase; and a dropped case does not change the cases produced for the
other rows of the same workbook. -/
theorem C8_case_drop_and_continue (fn : String) (wb : Workbook) (row : MasterRow) :
    ((∀ rsName, dictGet (parse_testcase_parameters row.cells) "RequestSheet" = some rsName →
        wb.find rsName = none →
        parse_testcase fn wb row = Except.ok (none, [missing_sheet_message fn]))
    ∧ (∀ rsName rs vsName,
        dictGet (parse_testcase_parameters row.cells) "RequestSheet" = some rsName →
        wb.find rsName = some rs →
        dictGet (parse_testcase_parameters row.cells) "ValidationSheet" = some vsName →
        wb.find vsName = none →
        parse_testcase fn wb row = Except.ok (none, [missing_sheet_message fn]))
    ∧ (∀ rsName rs vs, resolve_sheets wb (parse_testcase_parameters row.cells)
          = some (rsName, rs, vs) →
        rs.cell 1 1 ≠ some "Json" → rs.cell 1 1 ≠ some "XMLTagNamesStart" →
        parse_testcase fn wb row = Except.ok (none, [unknown_type_message fn rsName]))
    ∧ (∀ rsName rs vs, resolve_sheets wb (parse_testcase_parameters row.cells)
          = some (rsName, rs, vs) →
        rs.cell 1 1 = some "Json" →
        ((bracketRows rs).1 = none ∨ (bracketRows rs).2 = none) →
        parse_testcase fn wb row = Except.ok (none, [bracket_message fn])))
    ∧ (∀ as bs ds,
        ((runCases (as ++ Except.ok (none, ds) :: bs)).1).map (List.filterMap id)
          = ((runCases (as ++ bs)).1).map (List.filterMap id)) := by
  refine ⟨⟨?_, ?_, ?_, ?_⟩, ?_⟩
  · intro rsName h1 h2
    have hres : resolve_sheets wb (parse_testcase_parameters row.cells) = none := by
      unfold resolve_sheets
      rw [h1]
      dsimp only
      rw [h2]
    simp only [parse_testcase]
    rw [hres]
  · intro rsName rs vsName h1 h2 h3 h4
    have hres : resolve_sheets wb (parse_testcase_parameters row.cells) = none := by
      unfold resolve_sheets
      rw [h1]
      dsimp only
      rw [h2]
      dsimp only
      rw [h3]
      dsimp only
      rw [h4]
    simp only [parse_testcase]
    rw [hres]
  · intro rsName rs vs hres hne1 hne2
    simp only [parse_testcase]
    rw [hres]
    dsimp only
    rw [if_neg hne1, if_neg hne2]
  · intro rsName rs vs hres hj hbr
    have hjs : parse_json_input fn rs = Except.ok (none, [bracket_message fn]) := by
      unfold parse_json_input
      cases hbro : bracketRows rs with
      | mk a b =>
        rw [hbro] at hbr
        rcases hbr with hbr | hbr
        · dsimp only at hbr
          subst hbr
          rfl
        · dsimp only at hbr
          subst hbr
          cases a <;> rfl
    simp only [parse_testcase]
    rw [hres]
    dsimp only
    rw [if_pos hj, hjs]
  · exact fun as bs ds => runCases_skip_none as bs ds

/-- C8 witness: a case naming a request sheet that the workbook does not
contain is dropped with the missing-sheet diagnostic. -/
theorem C8_case_drop_and_continue_witness :
    parse_testcase "f" wbC8 rowC8 = Except.ok (none, [missing_sheet_message "f"]) :=
  (C8_case_drop_and_continue "f" wbC8 rowC8).1.1 "Nope" (by decide) (by rfl)

/-- C9: parse_workbook catches any raised exception at workbook granularity:
if some case raises, the result is none with a logged diagnostic and no
partial case list; on success the result holds exactly the successfully
parsed cases of the processed rows, in order. -/
theorem C9_workbook_granularity (fn : String) (wb : Workbook) (tds : Sheet)
    (h : wb.find "TestData" = some tds) :
    (Except.error () ∈ case_results fn wb tds →
      (parse_workbook fn wb).1 = none
      ∧ workbook_error_message fn ∈ (parse_workbook fn wb).2)
    ∧ (∀ l, (parse_workbook fn wb).1 = some l →
      ∃ pairs : List (Option TestCase × List String),
        case_results fn wb tds = pairs.map Except.ok
        ∧ l = (pairs.map Prod.fst).filterMap id) := by
  unfold parse_workbook
  rw [h]
  dsimp only
  constructor
  · intro herr
    have hrn := runCases_of_error _ herr
    cases hrc : runCases (case_results fn wb tds) with
    | mk res ds =>
      rw [hrc] at hrn
      dsimp only at hrn
      subst hrn
      exact ⟨rfl, by simp⟩
  · intro l hl
    cases hrc : runCases (case_results fn wb tds) with
    | mk res ds =>
      rw [hrc] at hl
      cases res with
      | none => simp at hl
      | some tcs =>
        dsimp only at hl
        injection hl with hl
        obtain ⟨pairs, hp1, hp2⟩ := runCases_ok_shape _ tcs (by rw [hrc])
        exact ⟨pairs, hp1, by rw [← hl, hp2]⟩

/-- C9 witness: a workbook whose single case raises (tag-pair sheet with an
all-blank row) produces no case list and logs the workbook-level
diagnostic. -/
theorem C9_workbook_granularity_witness :
    (parse_workbook "f" wbC9).1 = none
    ∧ workbook_error_message "f" ∈ (parse_workbook "f" wbC9).2 :=
  (C9_workbook_granularity "f" wbC9 tdsC9 (by rfl)).1 (by decide)

/-- C10: a tag-pair sheet row with both the start-tag and end-tag cells
absent appends the absent value to the property lines, the newline join of
that column then raises, the raised exception propagates through
parse_testcase, and the workbook that contains the sheet yields no cases. -/
theorem C10_xml_none_crash (s : Sheet) (r : Nat)
    (hr3 : 3 ≤ r) (hrm : r ≤ s.max_row) (hst : s.cell r 1 = none) (het : s.cell r 2 = none)
    (hcol : 3 ≤ s.max_column) :
    xml_row s 3 r = Except.ok (some none)
    ∧ (∀ fn, parse_xml_input fn s = Except.error ())
    ∧ (∀ fn wb row rsName vs,
        resolve_sheets wb (parse_testcase_parameters row.cells) = some (rsName, s, vs) →
        s.cell 1 1 = some "XMLTagNamesStart" →
        parse_testcase fn wb row = Except.error ())
    ∧ (∀ fn wb2 tds, wb2.find "TestData" = some tds →
        Except.error () ∈ case_results fn wb2 tds →
        (parse_workbook fn wb2).1 = none) := by
  have hrow : xml_row s 3 r = Except.ok (some none) := by
    unfold xml_row
    rw [het, hst]
  have hxml : ∀ fn, parse_xml_input fn s = Except.error () := by
    intro fn
    have hcol3 : xml_column s 3 = Except.error () := by
      unfold xml_column
      cases hfm : exceptFilterMap (xml_row s 3) (List.range' 3 (s.max_row + 1 - 3)) with
      | error e => cases e; rfl
      | ok props =>
        have hmem : (none : Option String) ∈ props :=
          exceptFilterMap_ok_mem _ _ _ hfm r (List.mem_range'_1.mpr (by omega)) none hrow
        dsimp only
        rw [seqOption_of_none props hmem]
    unfold parse_xml_input
    obtain ⟨k, hk⟩ : ∃ k, s.max_column + 1 - 3 = k + 1 := ⟨s.max_column - 3, by omega⟩
    rw [hk]
    simp only [List.range']
    simp only [exceptMap]
    rw [hcol3]
  refine ⟨hrow, hxml, ?_, ?_⟩
  · intro fn wb row rsName vs hres hT
    simp only [parse_testcase]
    rw [hres]
    dsimp only
    rw [hT]
    rw [if_neg (by decide), if_pos rfl]
    rw [hxml fn]
  · intro fn wb2 tds h herr
    unfold parse_workbook
    rw [h]
    dsimp only
    have hrn := runCases_of_error _ herr
    cases hrc : runCases (case_results fn wb2 tds) with
    | mk res ds =>
      rw [hrc] at hrn
      dsimp only at hrn
      subst hrn
      rfl

/-- C10 witness: the concrete tag-pair sheet whose row 3 has no start or end
tag makes parse_xml_input raise. -/
theorem C10_xml_none_crash_witness :
    parse_xml_input "f" sheetC10 = Except.error () :=
  (C10_xml_none_crash sheetC10 3 (by decide) (by decide) (by rfl) (by rfl)
    (by decide)).2.1 "f"

end OpenPyEl
